import Mathlib

/-!
# TourMate Windows runner: native window shell and embedding adapter

A shallow embedding of `windows/runner/win32_window.h`,
`windows/runner/win32_window.cpp` and `windows/runner/flutter_window.cpp`.

* The object (`Win32Window` / `FlutterWindow`) is a record of its data members.
* The operating system and the embedded engine are external collaborators.  Their
  answers are taken from an `Env` of oracles; their mutable part (per-window user
  data, client rectangles, child placement) is the `Os` record inside the state.
* Every virtual hook invocation and every effectful external call is appended to
  `State.trace`, so that "is invoked", "exactly once" and "before" are statements
  about lists.
* Of the messages the OS sends from inside its own calls, the two that the runner's
  members depend on are modelled: `CreateWindowEx` delivers `WM_NCCREATE` and
  `DestroyWindow` delivers `WM_DESTROY`, both to `WndProc`.
* C++ `long`/`int` arithmetic is 32-bit two's complement (`wrapLong`).
* A dereference of an empty `std::unique_ptr` is the fault `Fault.nullDereference`.
-/

set_option linter.dupNamespace false

namespace TourMate

/-! ## Machine types -/

/-- Native window handle; `0` is the null handle. -/
abbrev HWND := Nat
/-- Message identifier (`UINT`). -/
abbrev UINT := Nat
/-- Unsigned pointer-sized message parameter. -/
abbrev WPARAM := Nat
/-- Signed pointer-sized message parameter. -/
abbrev LPARAM := Int
/-- Signed pointer-sized message result. -/
abbrev LRESULT := Int

/-- The null handle. -/
abbrev nullptr : HWND := 0

/-- Reduction of an integer to the range of a 32-bit signed `long`. -/
def wrapLong (z : Int) : Int := (z + 2147483648) % 4294967296 - 2147483648

/-- The integer is representable as a 32-bit signed `long`. -/
def FitsLong (z : Int) : Prop := -2147483648 ≤ z ∧ z < 2147483648

/-- The C++ expression `a - b` on two `long` operands. -/
def subLong (a b : Int) : Int := wrapLong (a - b)

/-- Truncation of a `WPARAM` to a 32-bit `DWORD` / `UINT` argument. -/
def toDWORD (w : WPARAM) : Nat := w % 4294967296

/-- The Win32 macro `LOWORD` on a `WPARAM`. -/
def LOWORD (w : WPARAM) : Nat := w % 65536

/-- Conversion `(int)(short)` of a 16-bit word. -/
def shortOfWord (v : Int) : Int := if 32768 ≤ v then v - 65536 else v

/-- The Win32 macro `GET_X_LPARAM`. -/
def GET_X_LPARAM (l : LPARAM) : Int := shortOfWord (l % 65536)

/-- The Win32 macro `GET_Y_LPARAM`. -/
def GET_Y_LPARAM (l : LPARAM) : Int := shortOfWord ((l / 65536) % 65536)

/-! ## Windows SDK constants used by the runner -/

abbrev WM_DESTROY : UINT := 0x0002
abbrev WM_SIZE : UINT := 0x0005
abbrev WM_ACTIVATE : UINT := 0x0006
abbrev WM_CLOSE : UINT := 0x0010
abbrev WM_SETTINGCHANGE : UINT := 0x001A
abbrev WM_FONTCHANGE : UINT := 0x001D
abbrev WM_NCCREATE : UINT := 0x0081
abbrev WM_SYSCOMMAND : UINT := 0x0112
abbrev WM_DPICHANGED : UINT := 0x02E0
/-- The source spells the theme message `WM_THEMECHANGE`; the SDK value of the
theme-changed message is used. -/
abbrev WM_THEMECHANGE : UINT := 0x031A
abbrev SIZE_MINIMIZED : WPARAM := 1
abbrev WA_INACTIVE : Nat := 0
abbrev SW_SHOWNORMAL : Nat := 1
abbrev SW_SHOW : Nat := 5

/-! ## Geometry -/

/-- Win32 `RECT`. -/
structure RECT where
  left : Int
  top : Int
  right : Int
  bottom : Int
  deriving DecidableEq, Repr

/-- The struct `Win32Window::Point`. -/
structure Point where
  x : Int
  y : Int
  deriving DecidableEq, Repr

/-- The struct `Win32Window::Size`. -/
structure Size where
  width : Int
  height : Int
  deriving DecidableEq, Repr

/-- Placement of a child window as given to `MoveWindow`. -/
structure Geometry where
  x : Int
  y : Int
  width : Int
  height : Int
  deriving DecidableEq, Repr

/-- Converts a Win32 RECT to a `Win32Window::Point`. -/
def RectToPoint (rect : RECT) : Point :=
  { x := rect.left, y := rect.top }

/-- Converts a Win32 RECT to a `Win32Window::Size`. -/
def RectToSize (rect : RECT) : Size :=
  { width := subLong rect.right rect.left, height := subLong rect.bottom rect.top }

/-- The placement that makes a child fill the rectangle `frame`: the four arguments
`frame.left, frame.top, frame.right - frame.left, frame.bottom - frame.top`. -/
def rectGeometry (frame : RECT) : Geometry :=
  { x := frame.left, y := frame.top,
    width := subLong frame.right frame.left, height := subLong frame.bottom frame.top }

/-! ## Observable calls -/

/-- Hook invocations and effectful external calls, in the order they happen. -/
inductive Call where
  | OnCreate
  | OnDestroy
  | OnClose
  | OnActivate
  | OnDeactivate
  | OnBoundsChanged (origin : Point) (size : Size)
  | OnDpiScaleFactorChanged
  | OnThemeChanged
  | OnSettingChanged (setting : Nat)
  | OnSystemCommand (command : Nat) (location : Point)
  | MessageHandler (hwnd : HWND) (message : UINT) (wparam : WPARAM) (lparam : LPARAM)
  | SetChildContent (content_window : HWND)
  | RegisterClass
  | CreateWindowEx (title : String) (x y width height : Int)
  | SetWindowLongPtr (hwnd : HWND)
  | ShowWindow (hwnd : HWND) (cmd : Nat)
  | UpdateWindow (hwnd : HWND)
  | DestroyWindow (hwnd : HWND)
  | PostQuitMessage (code : Int)
  | DefWindowProc (hwnd : HWND) (message : UINT) (wparam : WPARAM) (lparam : LPARAM)
  | SetParent (child parent : HWND)
  | MoveWindow (hwnd : HWND) (x y width height : Int) (repaint : Bool)
  | FlutterViewController (width height : Int)
  | HandleTopLevelWindowProc (hwnd : HWND) (message : UINT) (wparam : WPARAM) (lparam : LPARAM)
  | ReloadSystemFonts
  | RegisterPlugins
  deriving DecidableEq, Repr

/-! ## State -/

/-- The engine view controller owned through `flutter_controller_`, remembered by
the pixel dimensions it was constructed with. -/
structure Controller where
  width : Int
  height : Int
  deriving DecidableEq, Repr

/-- Mutable operating-system state the runner reads or writes. -/
structure Os where
  /-- Whether the `GWLP_USERDATA` slot of a handle points to this instance. -/
  userdata : HWND → Bool
  /-- What `GetClientRect` answers for a handle. -/
  clientRect : HWND → RECT
  /-- Parent recorded by `SetParent`. -/
  parent : HWND → HWND
  /-- Placement recorded by `MoveWindow`. -/
  geometry : HWND → Option Geometry

/-- Data members of `Win32Window` and of its subclass `FlutterWindow`, together with
the operating-system state and the trace of calls made so far. -/
structure State where
  hwnd_ : HWND
  child_content_hwnd_ : HWND
  quit_on_close_ : Bool
  flutter_controller_ : Option Controller
  os : Os
  trace : List Call

/-- Answers of the external collaborators.  Each oracle may depend on the calls made
so far. -/
structure Env where
  /-- Outer rectangle computed by `AdjustWindowRectEx`. -/
  AdjustWindowRectEx : RECT → RECT
  /-- Handle returned by `CreateWindowEx` (`0` when native creation fails). -/
  CreateWindowEx : List Call → String → Int → Int → Int → Int → HWND
  /-- Result of default OS processing. -/
  DefWindowProc : List Call → HWND → UINT → WPARAM → LPARAM → LRESULT
  /-- Whether `engine()->binary_messenger()` is non-null. -/
  binary_messenger : Bool
  /-- Handle returned by `view()->GetHandle()`. -/
  view_handle : HWND
  /-- Answer of the engine: `some r` when it handled the message with result `r`. -/
  HandleTopLevelWindowProc : List Call → HWND → UINT → WPARAM → LPARAM → Option LRESULT

/-- Faults of the embedded code. -/
inductive Fault where
  | nullDereference
  deriving DecidableEq, Repr

/-- The dynamic type of the object, which selects the virtual overrides:
`flutter_window.cpp` overrides `OnCreate`, `OnDestroy` and `MessageHandler`. -/
inductive DynamicType where
  | win32Window
  | flutterWindow
  deriving DecidableEq, Repr

/-- Appends one call to the trace. -/
def log (s : State) (c : Call) : State :=
  { s with trace := s.trace ++ [c] }

/-- The calls made between state `s` and a later state `t`. -/
def callsDuring (s t : State) : List Call :=
  t.trace.drop s.trace.length

/-! ## Operating-system model -/

namespace Os

/-- Default OS processing of one message. -/
def DefWindowProc (env : Env) (s : State) (hwnd : HWND) (message : UINT)
    (wparam : WPARAM) (lparam : LPARAM) : LRESULT × State :=
  (env.DefWindowProc s.trace hwnd message wparam lparam,
   log s (Call.DefWindowProc hwnd message wparam lparam))

/-- Stores the instance pointer in the user-data slot of `hwnd`. -/
def SetWindowLongPtr (s : State) (hwnd : HWND) : State :=
  let s := log s (Call.SetWindowLongPtr hwnd)
  { s with os := { s.os with userdata := fun h => if h = hwnd then true else s.os.userdata h } }

/-- Reparents `child` under `newParent`. -/
def SetParent (s : State) (child newParent : HWND) : State :=
  let s := log s (Call.SetParent child newParent)
  { s with os := { s.os with parent := fun h => if h = child then newParent else s.os.parent h } }

/-- Places `hwnd` at `(x, y)` with the given extent. -/
def MoveWindow (s : State) (hwnd : HWND) (x y width height : Int) (repaint : Bool) : State :=
  let s := log s (Call.MoveWindow hwnd x y width height repaint)
  let placed : HWND → Option Geometry := fun h =>
    if h = hwnd then some { x := x, y := y, width := width, height := height }
    else s.os.geometry h
  { s with os := { s.os with geometry := placed } }

/-- Shows a window. -/
def ShowWindow (s : State) (hwnd : HWND) (cmd : Nat) : State :=
  log s (Call.ShowWindow hwnd cmd)

/-- Repaints a window. -/
def UpdateWindow (s : State) (hwnd : HWND) : State :=
  log s (Call.UpdateWindow hwnd)

/-- Posts the process-termination signal. -/
def PostQuitMessage (s : State) (code : Int) : State :=
  log s (Call.PostQuitMessage code)

/-- Registers the window class. -/
def RegisterClass (s : State) : State :=
  log s Call.RegisterClass

end Os

/-! ## Win32Window: non-virtual members and default hook bodies -/

namespace Win32Window

/-- Storage the object is constructed in: the bytes found at the three members. -/
structure RawStorage where
  hwnd_ : HWND
  child_content_hwnd_ : HWND
  quit_on_close_ : Bool

/-- The constructor `Win32Window::Win32Window()`.  The header declares `hwnd_`,
`child_content_hwnd_` and `quit_on_close_` without initializers and the constructor
body is empty, so the three members keep whatever the storage held; the
`std::unique_ptr` member of the subclass starts empty. -/
def Win32Window (raw : RawStorage) (os : Os) : State :=
  { hwnd_ := raw.hwnd_
    child_content_hwnd_ := raw.child_content_hwnd_
    quit_on_close_ := raw.quit_on_close_
    flutter_controller_ := none
    os := os
    trace := [] }

/-- The member `GetHandle`. -/
def GetHandle (s : State) : HWND := s.hwnd_

/-- The member `SetQuitOnClose`. -/
def SetQuitOnClose (s : State) (quit_on_close : Bool) : State :=
  { s with quit_on_close_ := quit_on_close }

/-- Default body of `OnCreate`. -/
def OnCreate (s : State) : Bool × State := (true, s)

/-- Default body of `OnDestroy`. -/
def OnDestroy (s : State) : State := s

/-- Default body of `OnActivate`. -/
def OnActivate (s : State) : State := s

/-- Default body of `OnDeactivate`. -/
def OnDeactivate (s : State) : State := s

/-- Default body of `OnBoundsChanged`. -/
def OnBoundsChanged (s : State) (_origin : Point) (_size : Size) : State := s

/-- Default body of `OnDpiScaleFactorChanged`. -/
def OnDpiScaleFactorChanged (s : State) : State := s

/-- Default body of `OnThemeChanged`. -/
def OnThemeChanged (s : State) : State := s

/-- Default body of `OnSettingChanged`. -/
def OnSettingChanged (s : State) (_setting : Nat) : State := s

/-- Default body of `OnSystemCommand`. -/
def OnSystemCommand (s : State) (_command : Nat) (_location : Point) : LRESULT × State :=
  (0, s)

/-- Default body of `MessageHandler`. -/
def MessageHandler (env : Env) (s : State) (hwnd : HWND) (message : UINT)
    (wparam : WPARAM) (lparam : LPARAM) : LRESULT × State :=
  Os.DefWindowProc env s hwnd message wparam lparam

/-- The member `SetChildContent`. -/
def SetChildContent (s : State) (content_window : HWND) : State :=
  let s := log s (Call.SetChildContent content_window)
  let s := { s with child_content_hwnd_ := content_window }
  if s.hwnd_ ≠ nullptr ∧ s.child_content_hwnd_ ≠ nullptr then
    let s := Os.SetParent s s.child_content_hwnd_ s.hwnd_
    let frame := s.os.clientRect s.hwnd_
    let s := Os.MoveWindow s s.child_content_hwnd_ frame.left frame.top
      (subLong frame.right frame.left) (subLong frame.bottom frame.top) true
    Os.ShowWindow s s.child_content_hwnd_ SW_SHOW
  else s

end Win32Window

/-! ## FlutterWindow overrides that cannot fault -/

namespace FlutterWindow

/-- The override `FlutterWindow::OnCreate`. -/
def OnCreate (env : Env) (s : State) : Bool × State :=
  let r := Win32Window.OnCreate s
  if !r.1 then (false, r.2)
  else
    let s := r.2
    let frame := s.os.clientRect (Win32Window.GetHandle s)
    let s := log s (Call.FlutterViewController
      (subLong frame.right frame.left) (subLong frame.bottom frame.top))
    let controller : Controller :=
      { width := subLong frame.right frame.left, height := subLong frame.bottom frame.top }
    let s := { s with flutter_controller_ := some controller }
    if !env.binary_messenger then (false, s)
    else
      let s := log s Call.RegisterPlugins
      let s := Win32Window.SetChildContent s env.view_handle
      (true, s)

/-- The override `FlutterWindow::OnDestroy`. -/
def OnDestroy (s : State) : State :=
  let s := { s with flutter_controller_ := none }
  Win32Window.OnDestroy s

/-- The override `FlutterWindow::MessageHandler`. -/
def MessageHandler (env : Env) (s : State) (hwnd : HWND) (message : UINT)
    (wparam : WPARAM) (lparam : LPARAM) : Except Fault (LRESULT × State) :=
  let offer : Option LRESULT × State :=
    match s.flutter_controller_ with
    | some _ =>
      (env.HandleTopLevelWindowProc s.trace hwnd message wparam lparam,
       log s (Call.HandleTopLevelWindowProc hwnd message wparam lparam))
    | none => (none, s)
  match offer.1 with
  | some handled => Except.ok (handled, offer.2)
  | none =>
    let s := offer.2
    if message = WM_FONTCHANGE then
      match s.flutter_controller_ with
      | some _ =>
        Except.ok (Win32Window.MessageHandler env (log s Call.ReloadSystemFonts)
          hwnd message wparam lparam)
      | none => Except.error Fault.nullDereference
    else
      Except.ok (Win32Window.MessageHandler env s hwnd message wparam lparam)

end FlutterWindow

/-! ## Virtual dispatch -/

/-- Virtual call of `OnCreate`. -/
def callOnCreate (env : Env) (k : DynamicType) (s : State) : Bool × State :=
  let s := log s Call.OnCreate
  match k with
  | DynamicType.win32Window => Win32Window.OnCreate s
  | DynamicType.flutterWindow => FlutterWindow.OnCreate env s

/-- Virtual call of `OnDestroy`. -/
def callOnDestroy (k : DynamicType) (s : State) : State :=
  let s := log s Call.OnDestroy
  match k with
  | DynamicType.win32Window => Win32Window.OnDestroy s
  | DynamicType.flutterWindow => FlutterWindow.OnDestroy s

/-- Virtual call of `MessageHandler`. -/
def callMessageHandler (env : Env) (k : DynamicType) (s : State) (hwnd : HWND)
    (message : UINT) (wparam : WPARAM) (lparam : LPARAM) : Except Fault (LRESULT × State) :=
  let s := log s (Call.MessageHandler hwnd message wparam lparam)
  match k with
  | DynamicType.win32Window =>
    Except.ok (Win32Window.MessageHandler env s hwnd message wparam lparam)
  | DynamicType.flutterWindow => FlutterWindow.MessageHandler env s hwnd message wparam lparam

/-- Virtual call of `OnActivate` (not overridden). -/
def callOnActivate (s : State) : State :=
  Win32Window.OnActivate (log s Call.OnActivate)

/-- Virtual call of `OnDeactivate` (not overridden). -/
def callOnDeactivate (s : State) : State :=
  Win32Window.OnDeactivate (log s Call.OnDeactivate)

/-- Virtual call of `OnBoundsChanged` (not overridden). -/
def callOnBoundsChanged (s : State) (origin : Point) (size : Size) : State :=
  Win32Window.OnBoundsChanged (log s (Call.OnBoundsChanged origin size)) origin size

/-- Virtual call of `OnDpiScaleFactorChanged` (not overridden). -/
def callOnDpiScaleFactorChanged (s : State) : State :=
  Win32Window.OnDpiScaleFactorChanged (log s Call.OnDpiScaleFactorChanged)

/-- Virtual call of `OnThemeChanged` (not overridden). -/
def callOnThemeChanged (s : State) : State :=
  Win32Window.OnThemeChanged (log s Call.OnThemeChanged)

/-- Virtual call of `OnSettingChanged` (not overridden). -/
def callOnSettingChanged (s : State) (setting : Nat) : State :=
  Win32Window.OnSettingChanged (log s (Call.OnSettingChanged setting)) setting

/-- Virtual call of `OnSystemCommand` (not overridden). -/
def callOnSystemCommand (s : State) (command : Nat) (location : Point) : LRESULT × State :=
  Win32Window.OnSystemCommand (log s (Call.OnSystemCommand command location)) command location

/-! ## The window procedure and the members that re-enter it -/

namespace Win32Window

/-- The `WM_NCCREATE` branch of `WndProc`: associate the instance with the handle,
record the handle on the instance, then fall through to `DefWindowProc`. -/
def WndProc_WM_NCCREATE (env : Env) (s : State) (hwnd : HWND) (wparam : WPARAM)
    (lparam : LPARAM) : LRESULT × State :=
  let s := Os.SetWindowLongPtr s hwnd
  let s := { s with hwnd_ := hwnd }
  Os.DefWindowProc env s hwnd WM_NCCREATE wparam lparam

/-- The `case WM_DESTROY:` body of `WndProc`. -/
def WndProc_WM_DESTROY (k : DynamicType) (s : State) : LRESULT × State :=
  let s := callOnDestroy k s
  let s := if s.quit_on_close_ then Os.PostQuitMessage s 0 else s
  (0, s)

end Win32Window

namespace Os

/-- The OS call `DestroyWindow(hwnd)`: it delivers one `WM_DESTROY` to the window
procedure of `hwnd` before returning (the procedure finds the instance through the
user-data slot, or defers to `DefWindowProc`), after which the handle is gone and so
is its user-data slot. -/
def DestroyWindow (env : Env) (k : DynamicType) (s : State) (hwnd : HWND) : State :=
  let s := log s (Call.DestroyWindow hwnd)
  let s :=
    if s.os.userdata hwnd then (Win32Window.WndProc_WM_DESTROY k s).2
    else (Os.DefWindowProc env s hwnd WM_DESTROY 0 0).2
  { s with os := { s.os with userdata := fun h => if h = hwnd then false else s.os.userdata h } }

/-- The OS call `CreateWindowEx`: when a handle is produced, `WM_NCCREATE` is
delivered to the window procedure with the instance as creation parameter before the
call returns. -/
def CreateWindowEx (env : Env) (s : State) (title : String) (x y width height : Int) :
    HWND × State :=
  let hwnd := env.CreateWindowEx s.trace title x y width height
  let s := log s (Call.CreateWindowEx title x y width height)
  if hwnd = nullptr then (nullptr, s)
  else (hwnd, (Win32Window.WndProc_WM_NCCREATE env s hwnd 0 0).2)

end Os

namespace Win32Window

/-- The member `Destroy`. -/
def Destroy (env : Env) (k : DynamicType) (s : State) : State :=
  if s.hwnd_ ≠ nullptr then
    let s := callOnDestroy k s
    let s := Os.DestroyWindow env k s s.hwnd_
    { s with hwnd_ := nullptr }
  else s

/-- Default body of `OnClose`. -/
def OnClose (env : Env) (k : DynamicType) (s : State) : LRESULT × State :=
  let s := if s.quit_on_close_ then Destroy env k s else s
  (0, s)

end Win32Window

/-- Virtual call of `OnClose` (not overridden). -/
def callOnClose (env : Env) (k : DynamicType) (s : State) : LRESULT × State :=
  Win32Window.OnClose env k (log s Call.OnClose)

namespace Win32Window

/-- The static window procedure `Win32Window::WndProc`. -/
def WndProc (env : Env) (k : DynamicType) (s : State) (hwnd : HWND) (message : UINT)
    (wparam : WPARAM) (lparam : LPARAM) : Except Fault (LRESULT × State) :=
  if message = WM_NCCREATE then
    Except.ok (WndProc_WM_NCCREATE env s hwnd wparam lparam)
  else if s.os.userdata hwnd then
    if message = WM_DESTROY then
      Except.ok (WndProc_WM_DESTROY k s)
    else if message = WM_CLOSE then
      Except.ok (callOnClose env k s)
    else if message = WM_ACTIVATE then
      Except.ok (0, if LOWORD wparam = WA_INACTIVE then callOnDeactivate s else callOnActivate s)
    else if message = WM_SIZE then
      if wparam ≠ SIZE_MINIMIZED then
        let rect := s.os.clientRect hwnd
        Except.ok (0, callOnBoundsChanged s (RectToPoint rect) (RectToSize rect))
      else Except.ok (0, s)
    else if message = WM_DPICHANGED then
      Except.ok (0, callOnDpiScaleFactorChanged s)
    else if message = WM_SETTINGCHANGE then
      Except.ok (0, callOnSettingChanged s (toDWORD wparam))
    else if message = WM_SYSCOMMAND then
      Except.ok (callOnSystemCommand s (toDWORD wparam)
        { x := GET_X_LPARAM lparam, y := GET_Y_LPARAM lparam })
    else if message = WM_THEMECHANGE then
      Except.ok (0, callOnThemeChanged s)
    else
      callMessageHandler env k s hwnd message wparam lparam
  else
    Except.ok (Os.DefWindowProc env s hwnd message wparam lparam)

/-- The member `CreateAndShow`. -/
def CreateAndShow (env : Env) (k : DynamicType) (s : State) (title : String)
    (origin : Point) (size : Size) : Bool × State :=
  let s := Destroy env k s
  let s := Os.RegisterClass s
  let window_rect := env.AdjustWindowRectEx
    { left := 0, top := 0, right := size.width, bottom := size.height }
  let r := Os.CreateWindowEx env s title origin.x origin.y
    (subLong window_rect.right window_rect.left) (subLong window_rect.bottom window_rect.top)
  let s := { r.2 with hwnd_ := r.1 }
  if s.hwnd_ = nullptr then (false, s)
  else
    let s := Os.ShowWindow s s.hwnd_ SW_SHOWNORMAL
    let s := Os.UpdateWindow s s.hwnd_
    callOnCreate env k s

end Win32Window

/-! ## Trace bookkeeping -/

/-- Recognises an `OnBoundsChanged` hook invocation. -/
def isOnBoundsChanged : Call → Bool
  | Call.OnBoundsChanged _ _ => true
  | _ => false

/-- Recognises a `MessageHandler` hook invocation. -/
def isMessageHandler : Call → Bool
  | Call.MessageHandler _ _ _ _ => true
  | _ => false

/-- Recognises a `PostQuitMessage` call. -/
def isPostQuitMessage : Call → Bool
  | Call.PostQuitMessage _ => true
  | _ => false

/-- Recognises a `DestroyWindow` call. -/
def isDestroyWindow : Call → Bool
  | Call.DestroyWindow _ => true
  | _ => false

/-- Recognises a `ShowWindow` call. -/
def isShowWindow : Call → Bool
  | Call.ShowWindow _ _ => true
  | _ => false

/-- Recognises a `SetChildContent` call. -/
def isSetChildContent : Call → Bool
  | Call.SetChildContent _ => true
  | _ => false

/-- Recognises a `DefWindowProc` call. -/
def isDefWindowProc : Call → Bool
  | Call.DefWindowProc _ _ _ _ => true
  | _ => false

/-- Recognises an offer of a message to the engine. -/
def isHandleTopLevelWindowProc : Call → Bool
  | Call.HandleTopLevelWindowProc _ _ _ _ => true
  | _ => false

/-- The calls made by `Destroy`, written out. -/
def destroyCalls (s : State) : List Call :=
  if s.hwnd_ = nullptr then []
  else if s.os.userdata s.hwnd_ then
    if s.quit_on_close_ then
      [Call.OnDestroy, Call.DestroyWindow s.hwnd_, Call.OnDestroy, Call.PostQuitMessage 0]
    else [Call.OnDestroy, Call.DestroyWindow s.hwnd_, Call.OnDestroy]
  else [Call.OnDestroy, Call.DestroyWindow s.hwnd_, Call.DefWindowProc s.hwnd_ WM_DESTROY 0 0]

/-- The OS calls made inside `SetChildContent`, written out. -/
def placementCalls (s : State) (content_window : HWND) : List Call :=
  if s.hwnd_ ≠ nullptr ∧ content_window ≠ nullptr then
    [Call.SetParent content_window s.hwnd_,
     Call.MoveWindow content_window (s.os.clientRect s.hwnd_).left (s.os.clientRect s.hwnd_).top
       (subLong (s.os.clientRect s.hwnd_).right (s.os.clientRect s.hwnd_).left)
       (subLong (s.os.clientRect s.hwnd_).bottom (s.os.clientRect s.hwnd_).top) true,
     Call.ShowWindow content_window SW_SHOW]
  else []

/-- The state in which `CreateAndShow` reaches its `CreateWindowEx` call. -/
def beforeCreateWindow (env : Env) (k : DynamicType) (s : State) : State :=
  Os.RegisterClass (Win32Window.Destroy env k s)

/-- The `CreateWindowEx` call made by `CreateAndShow`, as recorded in the trace. -/
def createWindowCall (env : Env) (title : String) (origin : Point) (size : Size) : Call :=
  Call.CreateWindowEx title origin.x origin.y
    (subLong (env.AdjustWindowRectEx
        { left := 0, top := 0, right := size.width, bottom := size.height }).right
      (env.AdjustWindowRectEx
        { left := 0, top := 0, right := size.width, bottom := size.height }).left)
    (subLong (env.AdjustWindowRectEx
        { left := 0, top := 0, right := size.width, bottom := size.height }).bottom
      (env.AdjustWindowRectEx
        { left := 0, top := 0, right := size.width, bottom := size.height }).top)

/-- The handle the OS returns to the `CreateWindowEx` call made by `CreateAndShow`. -/
def createdHandle (env : Env) (k : DynamicType) (s : State) (title : String)
    (origin : Point) (size : Size) : HWND :=
  env.CreateWindowEx (beforeCreateWindow env k s).trace title origin.x origin.y
    (subLong (env.AdjustWindowRectEx
        { left := 0, top := 0, right := size.width, bottom := size.height }).right
      (env.AdjustWindowRectEx
        { left := 0, top := 0, right := size.width, bottom := size.height }).left)
    (subLong (env.AdjustWindowRectEx
        { left := 0, top := 0, right := size.width, bottom := size.height }).bottom
      (env.AdjustWindowRectEx
        { left := 0, top := 0, right := size.width, bottom := size.height }).top)

/-! ## Resizing -/

/-- One resize performed by the OS on the owned window: the new client rectangle and
the parameters of the `WM_SIZE` message that announces it. -/
structure Resize where
  rect : RECT
  wparam : WPARAM
  lparam : LPARAM

namespace Os

/-- The OS resizes the owned window: its client rectangle becomes `ev.rect` and one
`WM_SIZE` is dispatched to the window procedure. -/
def resize (env : Env) (k : DynamicType) (s : State) (ev : Resize) :
    Except Fault (LRESULT × State) :=
  let owner := s.hwnd_
  let resized : HWND → RECT := fun h => if h = owner then ev.rect else s.os.clientRect h
  let s := { s with os := { s.os with clientRect := resized } }
  Win32Window.WndProc env k s owner WM_SIZE ev.wparam ev.lparam

/-- A sequence of resizes, in order. -/
def resizes (env : Env) (k : DynamicType) : State → List Resize → Except Fault State
  | s, [] => Except.ok s
  | s, ev :: evs =>
    match resize env k s ev with
    | Except.ok r => resizes env k r.2 evs
    | Except.error e => Except.error e

end Os

/-- The child content is placed exactly on the current client rectangle of the owning
window. -/
def ChildFillsClient (s : State) : Prop :=
  s.os.geometry s.child_content_hwnd_ = some (rectGeometry (s.os.clientRect s.hwnd_))

/-- The child-content invariant as the specification words it, at one owned window
`s`, one non-null content handle and one sequence of resizes: after `SetChildContent`
and the resizes the child is placed on the current client rectangle. -/
def ChildTracksClient (env : Env) (k : DynamicType) (s : State) (content_window : HWND)
    (evs : List Resize) : Prop :=
  ∃ t, Os.resizes env k (Win32Window.SetChildContent s content_window) evs = Except.ok t ∧
    ChildFillsClient t

/-- The font-change scenario as the specification words it: the handler completes with
exactly one `ReloadSystemFonts` request and without any `DefWindowProc` call. -/
def FontChangeReloadsOnly (env : Env) (s : State) (hwnd : HWND) (wparam : WPARAM)
    (lparam : LPARAM) : Prop :=
  ∃ r t, FlutterWindow.MessageHandler env s hwnd WM_FONTCHANGE wparam lparam
      = Except.ok (r, t) ∧
    (callsDuring s t).count Call.ReloadSystemFonts = 1 ∧
    (callsDuring s t).countP isDefWindowProc = 0

/-- A necessary part of "the engine is offered the message first": while `WndProc`
handles the message, the engine's `HandleTopLevelWindowProc` is called with it. -/
def EngineOffered (env : Env) (k : DynamicType) (s : State) (hwnd : HWND) (message : UINT)
    (wparam : WPARAM) (lparam : LPARAM) : Prop :=
  ∃ r t, Win32Window.WndProc env k s hwnd message wparam lparam = Except.ok (r, t) ∧
    Call.HandleTopLevelWindowProc hwnd message wparam lparam ∈ callsDuring s t

/-- The messages for which `WndProc` has a `case` of its own. -/
def interceptedMessages : List UINT :=
  [WM_DESTROY, WM_CLOSE, WM_ACTIVATE, WM_SIZE, WM_DPICHANGED, WM_SETTINGCHANGE,
   WM_SYSCOMMAND, WM_THEMECHANGE]

/-! ## Concrete collaborators for the worked scenarios -/

/-- An OS in which no handle is associated yet and every client area is 800 by 600. -/
def demoOs : Os :=
  { userdata := fun _ => false
    clientRect := fun _ => { left := 0, top := 0, right := 800, bottom := 600 }
    parent := fun _ => nullptr
    geometry := fun _ => none }

/-- Collaborators that succeed: creation yields handle `0x1001`, the engine has a
messenger and a view `0x2002`, and it declines every message. -/
def demoEnv : Env :=
  { AdjustWindowRectEx := fun r =>
      { left := r.left - 8, top := r.top - 31, right := r.right + 8, bottom := r.bottom + 8 }
    CreateWindowEx := fun _ _ _ _ _ _ => 0x1001
    DefWindowProc := fun _ _ _ _ _ => 0
    binary_messenger := true
    view_handle := 0x2002
    HandleTopLevelWindowProc := fun _ _ _ _ _ => none }

/-- As `demoEnv`, with an engine that handles every message with result `7`. -/
def handlingEnv : Env :=
  { demoEnv with HandleTopLevelWindowProc := fun _ _ _ _ _ => some 7 }

/-- As `demoEnv`, with an engine whose binary messenger is null. -/
def noMessengerEnv : Env :=
  { demoEnv with binary_messenger := false }

/-- As `demoEnv`, with native window creation failing. -/
def failingCreateEnv : Env :=
  { demoEnv with CreateWindowEx := fun _ _ _ _ _ _ => nullptr }

/-- An object constructed in zeroed storage. -/
def zeroedWindow : State :=
  Win32Window.Win32Window { hwnd_ := nullptr, child_content_hwnd_ := nullptr,
                            quit_on_close_ := false } demoOs

/-- An object constructed in storage filled with the byte `0xCC`. -/
def staleWindow : State :=
  Win32Window.Win32Window { hwnd_ := 0xCCCCCCCCCCCCCCCC, child_content_hwnd_ := 0xCCCCCCCCCCCCCCCC,
                            quit_on_close_ := true } demoOs

/-- The scenario window: a `FlutterWindow` titled "Test" created at origin (0,0) with
size (800,600) and quit-on-close set. -/
def testWindow : State :=
  (Win32Window.CreateAndShow demoEnv DynamicType.flutterWindow
    (Win32Window.SetQuitOnClose zeroedWindow true) "Test"
    { x := 0, y := 0 } { width := 800, height := 600 }).2

/-- The scenario window after its `OnDestroy` hook released the engine controller. -/
def releasedWindow : State :=
  callOnDestroy DynamicType.flutterWindow testWindow

/-! # Theorems -/

theorem callsDuring_of_append {s t : State} {l : List Call}
    (h : t.trace = s.trace ++ l) : callsDuring s t = l := by
  simp [callsDuring, h]

theorem callsDuring_self (s : State) : callsDuring s s = [] := by
  simp [callsDuring]

theorem Destroy_trace (env : Env) (k : DynamicType) (s : State) :
    (Win32Window.Destroy env k s).trace = s.trace ++ destroyCalls s := by
  unfold Win32Window.Destroy destroyCalls
  by_cases h0 : s.hwnd_ = nullptr
  · simp [h0]
  · cases k <;> cases hu : s.os.userdata s.hwnd_ <;> cases hq : s.quit_on_close_ <;>
      simp [h0, hu, hq, callOnDestroy, Os.DestroyWindow, Os.DefWindowProc, Os.PostQuitMessage,
        Win32Window.WndProc_WM_DESTROY, Win32Window.OnDestroy, FlutterWindow.OnDestroy, log]

theorem Destroy_hwnd (env : Env) (k : DynamicType) (s : State) :
    (Win32Window.Destroy env k s).hwnd_ = nullptr := by
  unfold Win32Window.Destroy
  by_cases h0 : s.hwnd_ = nullptr
  · simp [h0]
  · simp [h0]

theorem Destroy_quit_on_close (env : Env) (k : DynamicType) (s : State) :
    (Win32Window.Destroy env k s).quit_on_close_ = s.quit_on_close_ := by
  unfold Win32Window.Destroy
  by_cases h0 : s.hwnd_ = nullptr
  · simp [h0]
  · cases k <;> cases hu : s.os.userdata s.hwnd_ <;> cases hq : s.quit_on_close_ <;>
      simp [h0, hu, hq, callOnDestroy, Os.DestroyWindow, Os.DefWindowProc, Os.PostQuitMessage,
        Win32Window.WndProc_WM_DESTROY, Win32Window.OnDestroy, FlutterWindow.OnDestroy, log]

theorem subLong_of_fits (a b : Int) (h : FitsLong (a - b)) : subLong a b = a - b := by
  unfold FitsLong at h
  unfold subLong wrapLong
  omega

/-- C5: when no window is owned (the handle is null) `Destroy()` returns the state it
was given, makes no call at all (so neither the `OnDestroy` hook nor the OS
`DestroyWindow` runs), and for every state a second `Destroy()` changes nothing more
than the first. -/
theorem Destroy_unowned_is_noop (env : Env) (k : DynamicType) (s : State)
    (h : Win32Window.GetHandle s = nullptr) :
    Win32Window.Destroy env k s = s ∧
    callsDuring s (Win32Window.Destroy env k s) = [] ∧
    Call.OnDestroy ∉ callsDuring s (Win32Window.Destroy env k s) ∧
    (callsDuring s (Win32Window.Destroy env k s)).countP isDestroyWindow = 0 ∧
    (∀ u : State, Win32Window.Destroy env k (Win32Window.Destroy env k u)
      = Win32Window.Destroy env k u) := by
  have hs : Win32Window.Destroy env k s = s := by
    unfold Win32Window.GetHandle at h
    simp [Win32Window.Destroy, h]
  refine ⟨hs, ?_, ?_, ?_, ?_⟩
  · rw [hs]; exact callsDuring_self s
  · rw [hs, callsDuring_self]; simp
  · rw [hs, callsDuring_self]; simp
  · intro u
    have hu := Destroy_hwnd env k u
    generalize Win32Window.Destroy env k u = v at hu
    simp [Win32Window.Destroy, hu]

/-- Instance of C5 at an object constructed in zeroed storage, which owns no window. -/
theorem Destroy_unowned_is_noop_witness :
    Win32Window.GetHandle zeroedWindow = nullptr ∧
    Win32Window.Destroy demoEnv DynamicType.flutterWindow zeroedWindow = zeroedWindow ∧
    callsDuring zeroedWindow
      (Win32Window.Destroy demoEnv DynamicType.flutterWindow zeroedWindow) = [] :=
  ⟨rfl, (Destroy_unowned_is_noop demoEnv DynamicType.flutterWindow zeroedWindow rfl).1,
    (Destroy_unowned_is_noop demoEnv DynamicType.flutterWindow zeroedWindow rfl).2.1⟩

/-- C6: a `WM_SIZE` dispatched by `WndProc` to an associated instance returns 0 and
never reaches `MessageHandler`; with `wparam = SIZE_MINIMIZED` it makes no call, so
`OnBoundsChanged` is not invoked; with any other `wparam` the only call is one
`OnBoundsChanged`, whose origin is the top-left corner of the current client rectangle
and whose size is `right - left` by `bottom - top` computed in `long` arithmetic
(which is the exact difference whenever that difference fits a `long`). -/
theorem WndProc_WM_SIZE_dispatch (env : Env) (k : DynamicType) (s : State) (hwnd : HWND)
    (wparam : WPARAM) (lparam : LPARAM) (hassoc : s.os.userdata hwnd = true) :
    ∃ t, Win32Window.WndProc env k s hwnd WM_SIZE wparam lparam = Except.ok (0, t) ∧
      (callsDuring s t).countP isMessageHandler = 0 ∧
      (wparam = SIZE_MINIMIZED →
        callsDuring s t = [] ∧ (callsDuring s t).countP isOnBoundsChanged = 0) ∧
      (wparam ≠ SIZE_MINIMIZED →
        callsDuring s t =
          [Call.OnBoundsChanged
            { x := (s.os.clientRect hwnd).left, y := (s.os.clientRect hwnd).top }
            { width := subLong (s.os.clientRect hwnd).right (s.os.clientRect hwnd).left,
              height := subLong (s.os.clientRect hwnd).bottom (s.os.clientRect hwnd).top }] ∧
        (callsDuring s t).countP isOnBoundsChanged = 1 ∧
        (FitsLong ((s.os.clientRect hwnd).right - (s.os.clientRect hwnd).left) →
          subLong (s.os.clientRect hwnd).right (s.os.clientRect hwnd).left
            = (s.os.clientRect hwnd).right - (s.os.clientRect hwnd).left) ∧
        (FitsLong ((s.os.clientRect hwnd).bottom - (s.os.clientRect hwnd).top) →
          subLong (s.os.clientRect hwnd).bottom (s.os.clientRect hwnd).top
            = (s.os.clientRect hwnd).bottom - (s.os.clientRect hwnd).top)) := by
  by_cases hm : wparam = SIZE_MINIMIZED
  · refine ⟨s, ?_, ?_, ?_, ?_⟩
    · simp [Win32Window.WndProc, hassoc, hm]
    · simp [callsDuring_self]
    · intro _; simp [callsDuring_self]
    · intro h; exact absurd hm h
  · have ht : (callOnBoundsChanged s (RectToPoint (s.os.clientRect hwnd))
        (RectToSize (s.os.clientRect hwnd))).trace
        = s.trace ++ [Call.OnBoundsChanged (RectToPoint (s.os.clientRect hwnd))
            (RectToSize (s.os.clientRect hwnd))] := by
      simp [callOnBoundsChanged, Win32Window.OnBoundsChanged, log]
    have hc := callsDuring_of_append ht
    refine ⟨callOnBoundsChanged s (RectToPoint (s.os.clientRect hwnd))
      (RectToSize (s.os.clientRect hwnd)), ?_, ?_, ?_, ?_⟩
    · simp [Win32Window.WndProc, hassoc, hm]
    · rw [hc]; simp [isMessageHandler]
    · intro h; exact absurd h hm
    · intro _
      refine ⟨?_, ?_, ?_, ?_⟩
      · rw [hc]; simp [RectToPoint, RectToSize]
      · rw [hc]; simp [isOnBoundsChanged]
      · exact subLong_of_fits _ _
      · exact subLong_of_fits _ _

/-- Instance of C6 at the scenario window receiving a maximizing `WM_SIZE`. -/
theorem WndProc_WM_SIZE_dispatch_witness :
    testWindow.os.userdata 0x1001 = true ∧
    ∃ t, Win32Window.WndProc demoEnv DynamicType.flutterWindow testWindow 0x1001 WM_SIZE 2 0
        = Except.ok (0, t) ∧
      callsDuring testWindow t =
        [Call.OnBoundsChanged { x := 0, y := 0 } { width := 800, height := 600 }] := by
  refine ⟨rfl, ?_⟩
  obtain ⟨t, h1, _, _, h4⟩ :=
    WndProc_WM_SIZE_dispatch demoEnv DynamicType.flutterWindow testWindow 0x1001 2 0 rfl
  exact ⟨t, h1, (h4 (by decide)).1⟩

theorem SetChildContent_trace (s : State) (h : HWND) :
    (Win32Window.SetChildContent s h).trace
      = s.trace ++ Call.SetChildContent h :: placementCalls s h := by
  unfold Win32Window.SetChildContent placementCalls
  by_cases hc : s.hwnd_ ≠ nullptr ∧ h ≠ nullptr
  · simp [hc, Os.SetParent, Os.MoveWindow, Os.ShowWindow, log]
  · simp only [log]
    rw [if_neg hc, if_neg hc]

theorem SetChildContent_child (s : State) (h : HWND) :
    (Win32Window.SetChildContent s h).child_content_hwnd_ = h := by
  unfold Win32Window.SetChildContent
  by_cases hc : s.hwnd_ ≠ nullptr ∧ h ≠ nullptr
  · simp [hc, Os.SetParent, Os.MoveWindow, Os.ShowWindow, log]
  · simp only [log]
    rw [if_neg hc]

theorem placementCalls_no_RegisterPlugins (s : State) (h : HWND) :
    Call.RegisterPlugins ∉ placementCalls s h := by
  unfold placementCalls
  split <;> simp

theorem placementCalls_no_SetChildContent (s : State) (h : HWND) :
    (placementCalls s h).countP isSetChildContent = 0 := by
  unfold placementCalls
  split <;> simp [isSetChildContent]

theorem destroyCalls_no_OnCreate (s : State) : Call.OnCreate ∉ destroyCalls s := by
  unfold destroyCalls
  split
  · simp
  · split
    · split <;> simp
    · simp

theorem destroyCalls_no_ShowWindow (s : State) :
    (destroyCalls s).countP isShowWindow = 0 := by
  unfold destroyCalls
  split
  · simp
  · split
    · split <;> simp [isShowWindow]
    · simp [isShowWindow]

/-- C4: for an owned, associated window with quit-on-close set, one `WM_CLOSE`
dispatched through `WndProc` (the OS `DestroyWindow` delivering one `WM_DESTROY` to the
same procedure) returns 0, leaves `GetHandle()` null, calls `DestroyWindow` once and
posts the process-termination signal `PostQuitMessage(0)` exactly once. -/
theorem close_destroys_and_quits_once (env : Env) (k : DynamicType) (s : State)
    (wparam : WPARAM) (lparam : LPARAM)
    (hown : Win32Window.GetHandle s ≠ nullptr)
    (hassoc : s.os.userdata s.hwnd_ = true)
    (hquit : s.quit_on_close_ = true) :
    ∃ t, Win32Window.WndProc env k s s.hwnd_ WM_CLOSE wparam lparam = Except.ok (0, t) ∧
      Win32Window.GetHandle t = nullptr ∧
      callsDuring s t =
        [Call.OnClose, Call.OnDestroy, Call.DestroyWindow s.hwnd_, Call.OnDestroy,
         Call.PostQuitMessage 0] ∧
      (callsDuring s t).countP isPostQuitMessage = 1 ∧
      (callsDuring s t).countP isDestroyWindow = 1 := by
  unfold Win32Window.GetHandle at hown
  have ht : (Win32Window.Destroy env k (log s Call.OnClose)).trace
      = s.trace ++ [Call.OnClose, Call.OnDestroy, Call.DestroyWindow s.hwnd_, Call.OnDestroy,
          Call.PostQuitMessage 0] := by
    rw [Destroy_trace]
    simp [destroyCalls, log, hown, hassoc, hquit]
  have hc := callsDuring_of_append ht
  refine ⟨Win32Window.Destroy env k (log s Call.OnClose), ?_, ?_, hc, ?_, ?_⟩
  · simp [Win32Window.WndProc, hassoc, callOnClose, Win32Window.OnClose, log, hquit]
  · exact Destroy_hwnd env k _
  · rw [hc]; simp [isPostQuitMessage]
  · rw [hc]; simp [isDestroyWindow]

/-- Instance of C4 at the scenario window. -/
theorem close_destroys_and_quits_once_witness :
    Win32Window.GetHandle testWindow ≠ nullptr ∧
    testWindow.os.userdata testWindow.hwnd_ = true ∧
    testWindow.quit_on_close_ = true ∧
    ∃ t, Win32Window.WndProc demoEnv DynamicType.flutterWindow testWindow testWindow.hwnd_
        WM_CLOSE 0 0 = Except.ok (0, t) ∧
      Win32Window.GetHandle t = nullptr ∧
      (callsDuring testWindow t).countP isPostQuitMessage = 1 := by
  refine ⟨by decide, rfl, rfl, ?_⟩
  obtain ⟨t, h1, h2, _, h4, _⟩ :=
    close_destroys_and_quits_once demoEnv DynamicType.flutterWindow testWindow 0 0
      (by decide) rfl rfl
  exact ⟨t, h1, h2, h4⟩

theorem beforeCreateWindow_trace (env : Env) (k : DynamicType) (s : State) :
    (beforeCreateWindow env k s).trace = s.trace ++ (destroyCalls s ++ [Call.RegisterClass]) := by
  simp [beforeCreateWindow, Os.RegisterClass, log, Destroy_trace]

/-- C8: `CreateAndShow` either fails at native creation or hands over to the creation
hook.  When `CreateWindowEx` returns the null handle it returns false, owns no window,
makes no call after `CreateWindowEx`, and on the whole invokes neither the `OnCreate`
hook nor `ShowWindow`.  When the handle is non-null it shows and updates that window
and its result is exactly the result of the virtual `OnCreate` call made then. -/
theorem CreateAndShow_result (env : Env) (k : DynamicType) (s : State) (title : String)
    (origin : Point) (size : Size) :
    (createdHandle env k s title origin size = nullptr →
      (Win32Window.CreateAndShow env k s title origin size).1 = false ∧
      Win32Window.GetHandle (Win32Window.CreateAndShow env k s title origin size).2 = nullptr ∧
      callsDuring (beforeCreateWindow env k s)
        (Win32Window.CreateAndShow env k s title origin size).2
        = [createWindowCall env title origin size] ∧
      Call.OnCreate ∉ callsDuring s (Win32Window.CreateAndShow env k s title origin size).2 ∧
      (callsDuring s (Win32Window.CreateAndShow env k s title origin size).2).countP
        isShowWindow = 0) ∧
    (createdHandle env k s title origin size ≠ nullptr →
      ∃ mid : State,
        Win32Window.GetHandle mid = createdHandle env k s title origin size ∧
        callsDuring (beforeCreateWindow env k s) mid
          = [createWindowCall env title origin size,
             Call.SetWindowLongPtr (createdHandle env k s title origin size),
             Call.DefWindowProc (createdHandle env k s title origin size) WM_NCCREATE 0 0,
             Call.ShowWindow (createdHandle env k s title origin size) SW_SHOWNORMAL,
             Call.UpdateWindow (createdHandle env k s title origin size)] ∧
        Win32Window.CreateAndShow env k s title origin size = callOnCreate env k mid ∧
        (Win32Window.CreateAndShow env k s title origin size).1
          = (callOnCreate env k mid).1) := by
  constructor
  · intro h0
    have hfst : (Win32Window.CreateAndShow env k s title origin size).1 = false := by
      unfold createdHandle beforeCreateWindow at h0
      simp [Win32Window.CreateAndShow, Os.CreateWindowEx, h0]
    have hhw : (Win32Window.CreateAndShow env k s title origin size).2.hwnd_ = nullptr := by
      unfold createdHandle beforeCreateWindow at h0
      simp [Win32Window.CreateAndShow, Os.CreateWindowEx, h0]
    have htr : (Win32Window.CreateAndShow env k s title origin size).2.trace
        = (beforeCreateWindow env k s).trace ++ [createWindowCall env title origin size] := by
      unfold createdHandle beforeCreateWindow at h0
      simp [Win32Window.CreateAndShow, Os.CreateWindowEx, h0, beforeCreateWindow,
        createWindowCall, log]
    have htr2 : (Win32Window.CreateAndShow env k s title origin size).2.trace
        = s.trace ++ (destroyCalls s ++
            [Call.RegisterClass, createWindowCall env title origin size]) := by
      rw [htr, beforeCreateWindow_trace]; simp
    refine ⟨hfst, hhw, callsDuring_of_append htr, ?_, ?_⟩
    · rw [callsDuring_of_append htr2]
      have := destroyCalls_no_OnCreate s
      simp [this, createWindowCall]
    · rw [callsDuring_of_append htr2]
      have := destroyCalls_no_ShowWindow s
      simp [this, createWindowCall, isShowWindow]
  · intro h1
    unfold createdHandle beforeCreateWindow at h1
    refine ⟨Os.UpdateWindow (Os.ShowWindow
        { (Os.CreateWindowEx env (beforeCreateWindow env k s) title origin.x origin.y
            (subLong (env.AdjustWindowRectEx
              { left := 0, top := 0, right := size.width, bottom := size.height }).right
              (env.AdjustWindowRectEx
              { left := 0, top := 0, right := size.width, bottom := size.height }).left)
            (subLong (env.AdjustWindowRectEx
              { left := 0, top := 0, right := size.width, bottom := size.height }).bottom
              (env.AdjustWindowRectEx
              { left := 0, top := 0, right := size.width, bottom := size.height }).top)).2
          with hwnd_ := createdHandle env k s title origin size }
        (createdHandle env k s title origin size) SW_SHOWNORMAL)
        (createdHandle env k s title origin size), ?_, ?_, ?_⟩
    · simp [Win32Window.GetHandle, Os.UpdateWindow, Os.ShowWindow, log]
    · apply callsDuring_of_append
      simp [Os.UpdateWindow, Os.ShowWindow, Os.CreateWindowEx, log, createdHandle,
        beforeCreateWindow, h1, Win32Window.WndProc_WM_NCCREATE, Os.SetWindowLongPtr,
        Os.DefWindowProc, createWindowCall]
    · have key : ∀ m : State,
          Win32Window.CreateAndShow env k s title origin size = callOnCreate env k m →
          (Win32Window.CreateAndShow env k s title origin size = callOnCreate env k m ∧
           (Win32Window.CreateAndShow env k s title origin size).1
             = (callOnCreate env k m).1) :=
        fun m h => ⟨h, by rw [h]⟩
      apply key
      simp [Win32Window.CreateAndShow, Os.CreateWindowEx, h1, createdHandle,
        beforeCreateWindow]
      rfl

/-- Instance of C8 with native creation failing and with native creation succeeding. -/
theorem CreateAndShow_result_witness :
    createdHandle failingCreateEnv DynamicType.flutterWindow zeroedWindow "Test"
      { x := 0, y := 0 } { width := 800, height := 600 } = nullptr ∧
    (Win32Window.CreateAndShow failingCreateEnv DynamicType.flutterWindow zeroedWindow "Test"
      { x := 0, y := 0 } { width := 800, height := 600 }).1 = false ∧
    createdHandle demoEnv DynamicType.flutterWindow zeroedWindow "Test"
      { x := 0, y := 0 } { width := 800, height := 600 } ≠ nullptr ∧
    ∃ mid : State,
      Win32Window.CreateAndShow demoEnv DynamicType.flutterWindow zeroedWindow "Test"
        { x := 0, y := 0 } { width := 800, height := 600 }
        = callOnCreate demoEnv DynamicType.flutterWindow mid := by
  refine ⟨rfl, ?_, by decide, ?_⟩
  · exact ((CreateAndShow_result failingCreateEnv DynamicType.flutterWindow zeroedWindow "Test"
      { x := 0, y := 0 } { width := 800, height := 600 }).1 rfl).1
  · obtain ⟨mid, _, _, h, _⟩ :=
      (CreateAndShow_result demoEnv DynamicType.flutterWindow zeroedWindow "Test"
        { x := 0, y := 0 } { width := 800, height := 600 }).2 (by decide)
    exact ⟨mid, h⟩

/-- C7: in `FlutterWindow::OnCreate`, a null binary messenger makes the hook return
false with no `RegisterPlugins` and no `SetChildContent` call, the child-content handle
being left as it was; a non-null messenger (the base `OnCreate` having succeeded) makes
it construct the controller, call `RegisterPlugins` exactly once, then
`SetChildContent` exactly once with the engine view handle, and return true. -/
theorem FlutterWindow_OnCreate_short_circuit (env : Env) (s : State) :
    (env.binary_messenger = false →
      (FlutterWindow.OnCreate env s).1 = false ∧
      Call.RegisterPlugins ∉ callsDuring s (FlutterWindow.OnCreate env s).2 ∧
      (callsDuring s (FlutterWindow.OnCreate env s).2).countP isSetChildContent = 0 ∧
      (FlutterWindow.OnCreate env s).2.child_content_hwnd_ = s.child_content_hwnd_) ∧
    (env.binary_messenger = true → (Win32Window.OnCreate s).1 = true →
      (FlutterWindow.OnCreate env s).1 = true ∧
      (∃ rest : List Call,
        callsDuring s (FlutterWindow.OnCreate env s).2
          = Call.FlutterViewController
              (subLong (s.os.clientRect s.hwnd_).right (s.os.clientRect s.hwnd_).left)
              (subLong (s.os.clientRect s.hwnd_).bottom (s.os.clientRect s.hwnd_).top)
            :: Call.RegisterPlugins :: Call.SetChildContent env.view_handle :: rest ∧
        Call.RegisterPlugins ∉ rest ∧ rest.countP isSetChildContent = 0) ∧
      (callsDuring s (FlutterWindow.OnCreate env s).2).count Call.RegisterPlugins = 1 ∧
      (callsDuring s (FlutterWindow.OnCreate env s).2).countP isSetChildContent = 1 ∧
      (FlutterWindow.OnCreate env s).2.child_content_hwnd_ = env.view_handle) := by
  constructor
  · intro hb
    have htr : (FlutterWindow.OnCreate env s).2.trace
        = s.trace ++ [Call.FlutterViewController
              (subLong (s.os.clientRect s.hwnd_).right (s.os.clientRect s.hwnd_).left)
              (subLong (s.os.clientRect s.hwnd_).bottom (s.os.clientRect s.hwnd_).top)] := by
      simp [FlutterWindow.OnCreate, Win32Window.OnCreate, Win32Window.GetHandle, hb, log]
    refine ⟨?_, ?_, ?_, ?_⟩
    · simp [FlutterWindow.OnCreate, Win32Window.OnCreate, hb]
    · rw [callsDuring_of_append htr]; simp
    · rw [callsDuring_of_append htr]; simp [isSetChildContent]
    · simp [FlutterWindow.OnCreate, Win32Window.OnCreate, hb, log]
  · intro hb _
    have hstate : (FlutterWindow.OnCreate env s).2
        = Win32Window.SetChildContent
            (log { (log s (Call.FlutterViewController
              (subLong (s.os.clientRect s.hwnd_).right (s.os.clientRect s.hwnd_).left)
              (subLong (s.os.clientRect s.hwnd_).bottom (s.os.clientRect s.hwnd_).top)))
              with flutter_controller_ := some (Controller.mk
                (subLong (s.os.clientRect s.hwnd_).right (s.os.clientRect s.hwnd_).left)
                (subLong (s.os.clientRect s.hwnd_).bottom (s.os.clientRect s.hwnd_).top)) }
              Call.RegisterPlugins) env.view_handle := by
      simp [FlutterWindow.OnCreate, Win32Window.OnCreate, Win32Window.GetHandle, hb]
    have htr : (FlutterWindow.OnCreate env s).2.trace
        = s.trace ++ (Call.FlutterViewController
              (subLong (s.os.clientRect s.hwnd_).right (s.os.clientRect s.hwnd_).left)
              (subLong (s.os.clientRect s.hwnd_).bottom (s.os.clientRect s.hwnd_).top)
            :: Call.RegisterPlugins :: Call.SetChildContent env.view_handle ::
              placementCalls s env.view_handle) := by
      rw [hstate, SetChildContent_trace]
      simp [log, placementCalls]
    have hno1 := placementCalls_no_RegisterPlugins s env.view_handle
    have hno2 := placementCalls_no_SetChildContent s env.view_handle
    refine ⟨?_, ⟨placementCalls s env.view_handle, callsDuring_of_append htr, hno1, hno2⟩,
      ?_, ?_, ?_⟩
    · simp [FlutterWindow.OnCreate, Win32Window.OnCreate, hb]
    · rw [callsDuring_of_append htr]
      simp [List.count_cons, List.count_eq_zero_of_not_mem hno1]
    · rw [callsDuring_of_append htr]
      simp [List.countP_cons, isSetChildContent, hno2]
    · rw [hstate]; exact SetChildContent_child _ _

/-- Instance of C7 with a null and with a non-null binary messenger. -/
theorem FlutterWindow_OnCreate_short_circuit_witness :
    noMessengerEnv.binary_messenger = false ∧
    (FlutterWindow.OnCreate noMessengerEnv zeroedWindow).1 = false ∧
    demoEnv.binary_messenger = true ∧ (Win32Window.OnCreate zeroedWindow).1 = true ∧
    (FlutterWindow.OnCreate demoEnv zeroedWindow).1 = true ∧
    (callsDuring zeroedWindow (FlutterWindow.OnCreate demoEnv zeroedWindow).2).count
      Call.RegisterPlugins = 1 :=
  ⟨rfl, ((FlutterWindow_OnCreate_short_circuit noMessengerEnv zeroedWindow).1 rfl).1,
    rfl, rfl,
    ((FlutterWindow_OnCreate_short_circuit demoEnv zeroedWindow).2 rfl rfl).1,
    ((FlutterWindow_OnCreate_short_circuit demoEnv zeroedWindow).2 rfl rfl).2.2.1⟩

theorem resize_ok (env : Env) (k : DynamicType) (s : State) (ev : Resize) :
    ∃ r, Os.resize env k s ev = Except.ok r ∧ r.2.hwnd_ = s.hwnd_ ∧
      r.2.child_content_hwnd_ = s.child_content_hwnd_ ∧
      r.2.os.geometry = s.os.geometry ∧ r.2.os.parent = s.os.parent := by
  unfold Os.resize Win32Window.WndProc
  cases hu : s.os.userdata s.hwnd_ <;> by_cases hm : ev.wparam = SIZE_MINIMIZED <;>
    simp [hu, hm, Os.DefWindowProc, log, callOnBoundsChanged, Win32Window.OnBoundsChanged]

theorem resizes_ok (env : Env) (k : DynamicType) (evs : List Resize) :
    ∀ s : State, ∃ t, Os.resizes env k s evs = Except.ok t ∧ t.hwnd_ = s.hwnd_ ∧
      t.child_content_hwnd_ = s.child_content_hwnd_ ∧
      t.os.geometry = s.os.geometry ∧ t.os.parent = s.os.parent := by
  induction evs with
  | nil => intro s; exact ⟨s, rfl, rfl, rfl, rfl, rfl⟩
  | cons ev evs ih =>
    intro s
    obtain ⟨r, hr, h1, h2, h3, h4⟩ := resize_ok env k s ev
    obtain ⟨t, ht, g1, g2, g3, g4⟩ := ih r.2
    refine ⟨t, ?_, g1.trans h1, g2.trans h2, g3.trans h3, g4.trans h4⟩
    simp [Os.resizes, hr, ht]

theorem SetChildContent_placement (s : State) (h : HWND)
    (hown : s.hwnd_ ≠ nullptr) (hh : h ≠ nullptr) :
    (Win32Window.SetChildContent s h).hwnd_ = s.hwnd_ ∧
    (Win32Window.SetChildContent s h).os.clientRect = s.os.clientRect ∧
    (Win32Window.SetChildContent s h).os.parent h = s.hwnd_ ∧
    (Win32Window.SetChildContent s h).os.geometry h
      = some (rectGeometry (s.os.clientRect s.hwnd_)) := by
  simp [Win32Window.SetChildContent, hown, hh, Os.SetParent, Os.MoveWindow, Os.ShowWindow,
    log, rectGeometry]

/-- C1 (as amended): with a window owned and `h` non-null, `SetChildContent(h)` parents
the child under the owning window and places it exactly on the client rectangle of
that moment; every sequence of resize messages dispatched through `WndProc` completes
and leaves the child's parent and placement untouched, so afterwards the child still
has the client rectangle it was attached with, and it fills the current client
rectangle exactly when that rectangle has the same placement as at attachment. -/
theorem child_placement_fixed_at_attachment (env : Env) (k : DynamicType) (s : State)
    (h : HWND) (evs : List Resize)
    (hown : Win32Window.GetHandle s ≠ nullptr) (hh : h ≠ nullptr) :
    ChildFillsClient (Win32Window.SetChildContent s h) ∧
    (Win32Window.SetChildContent s h).os.parent h = s.hwnd_ ∧
    ∃ t, Os.resizes env k (Win32Window.SetChildContent s h) evs = Except.ok t ∧
      t.hwnd_ = s.hwnd_ ∧ t.child_content_hwnd_ = h ∧
      t.os.parent h = s.hwnd_ ∧
      t.os.geometry h = some (rectGeometry (s.os.clientRect s.hwnd_)) ∧
      (ChildFillsClient t ↔
        rectGeometry (t.os.clientRect t.hwnd_) = rectGeometry (s.os.clientRect s.hwnd_)) := by
  unfold Win32Window.GetHandle at hown
  obtain ⟨p1, p2, p3, p4⟩ := SetChildContent_placement s h hown hh
  have pc := SetChildContent_child s h
  refine ⟨?_, p3, ?_⟩
  · unfold ChildFillsClient
    rw [pc, p4, p1, p2]
  · obtain ⟨t, ht, g1, g2, g3, g4⟩ := resizes_ok env k evs (Win32Window.SetChildContent s h)
    have hgeo : t.os.geometry h = some (rectGeometry (s.os.clientRect s.hwnd_)) := by
      rw [g3, p4]
    refine ⟨t, ht, g1.trans p1, g2.trans pc, ?_, hgeo, ?_⟩
    · rw [g4, p3]
    · unfold ChildFillsClient
      rw [g2, pc, hgeo]
      constructor
      · intro e; exact (Option.some.inj e).symm
      · intro e; rw [e]

/-- Instance of amended C1 at the scenario window resized once to 1024 by 768. -/
theorem child_placement_fixed_at_attachment_witness :
    Win32Window.GetHandle testWindow ≠ nullptr ∧ (0x2002 : HWND) ≠ nullptr ∧
    ∃ t, Os.resizes demoEnv DynamicType.flutterWindow
        (Win32Window.SetChildContent testWindow 0x2002)
        [{ rect := { left := 0, top := 0, right := 1024, bottom := 768 },
           wparam := 0, lparam := 50332672 }] = Except.ok t ∧
      t.os.geometry 0x2002 = some (rectGeometry (testWindow.os.clientRect testWindow.hwnd_)) := by
  refine ⟨by decide, by decide, ?_⟩
  obtain ⟨_, _, t, h1, _, _, _, h5, _⟩ :=
    child_placement_fixed_at_attachment demoEnv DynamicType.flutterWindow testWindow 0x2002
      [{ rect := { left := 0, top := 0, right := 1024, bottom := 768 },
         wparam := 0, lparam := 50332672 }] (by decide) (by decide)
  exact ⟨t, h1, h5⟩

/-- C1 (counterexample): the scenario window, owned and with content `0x2002` attached
by `SetChildContent`, is resized once to a 1024 by 768 client area; the resize is
dispatched through `WndProc`, and afterwards the child still has its 800 by 600
placement, so it does not fill the current client rectangle. -/
theorem child_not_resized_with_window :
    Win32Window.GetHandle testWindow ≠ nullptr ∧ (0x2002 : HWND) ≠ nullptr ∧
    ¬ ChildTracksClient demoEnv DynamicType.flutterWindow testWindow 0x2002
        [{ rect := { left := 0, top := 0, right := 1024, bottom := 768 },
           wparam := 0, lparam := 50332672 }] := by
  refine ⟨by decide, by decide, ?_⟩
  rintro ⟨t, ht, hfill⟩
  have hgeo : (Os.resizes demoEnv DynamicType.flutterWindow
        (Win32Window.SetChildContent testWindow 0x2002)
        [{ rect := { left := 0, top := 0, right := 1024, bottom := 768 },
           wparam := 0, lparam := 50332672 }]).toOption.map
        (fun u => u.os.geometry u.child_content_hwnd_)
      = some (some { x := 0, y := 0, width := 800, height := 600 }) := by decide
  have hrect : (Os.resizes demoEnv DynamicType.flutterWindow
        (Win32Window.SetChildContent testWindow 0x2002)
        [{ rect := { left := 0, top := 0, right := 1024, bottom := 768 },
           wparam := 0, lparam := 50332672 }]).toOption.map
        (fun u => u.os.clientRect u.hwnd_)
      = some { left := 0, top := 0, right := 1024, bottom := 768 } := by decide
  rw [ht] at hgeo hrect
  simp only [Except.toOption, Option.map_some', Option.some.injEq] at hgeo hrect
  unfold ChildFillsClient at hfill
  rw [hgeo, hrect] at hfill
  revert hfill
  decide

/-- C2 (as amended): with the engine controller present, a `WM_FONTCHANGE` given to
`FlutterWindow::MessageHandler` is first offered to the engine.  If the engine declines
it, exactly one `ReloadSystemFonts` request follows and the message then goes on to the
base handler, which calls `DefWindowProc` exactly once and whose result is returned.
If the engine handles it, its result is returned, no font reload is requested and
`DefWindowProc` is not called. -/
theorem font_change_reload_then_default (env : Env) (s : State) (hwnd : HWND)
    (wparam : WPARAM) (lparam : LPARAM) (c : Controller)
    (hc : s.flutter_controller_ = some c) :
    (env.HandleTopLevelWindowProc s.trace hwnd WM_FONTCHANGE wparam lparam = none →
      ∃ t, FlutterWindow.MessageHandler env s hwnd WM_FONTCHANGE wparam lparam
          = Except.ok (env.DefWindowProc
              (s.trace ++ [Call.HandleTopLevelWindowProc hwnd WM_FONTCHANGE wparam lparam,
                Call.ReloadSystemFonts]) hwnd WM_FONTCHANGE wparam lparam, t) ∧
        callsDuring s t =
          [Call.HandleTopLevelWindowProc hwnd WM_FONTCHANGE wparam lparam,
           Call.ReloadSystemFonts,
           Call.DefWindowProc hwnd WM_FONTCHANGE wparam lparam] ∧
        (callsDuring s t).count Call.ReloadSystemFonts = 1 ∧
        (callsDuring s t).countP isDefWindowProc = 1) ∧
    (∀ r, env.HandleTopLevelWindowProc s.trace hwnd WM_FONTCHANGE wparam lparam = some r →
      ∃ t, FlutterWindow.MessageHandler env s hwnd WM_FONTCHANGE wparam lparam
          = Except.ok (r, t) ∧
        callsDuring s t = [Call.HandleTopLevelWindowProc hwnd WM_FONTCHANGE wparam lparam] ∧
        (callsDuring s t).count Call.ReloadSystemFonts = 0 ∧
        (callsDuring s t).countP isDefWindowProc = 0) := by
  constructor
  · intro hd
    have ht : (log (log (log s (Call.HandleTopLevelWindowProc hwnd WM_FONTCHANGE wparam lparam))
          Call.ReloadSystemFonts) (Call.DefWindowProc hwnd WM_FONTCHANGE wparam lparam)).trace
        = s.trace ++ [Call.HandleTopLevelWindowProc hwnd WM_FONTCHANGE wparam lparam,
            Call.ReloadSystemFonts, Call.DefWindowProc hwnd WM_FONTCHANGE wparam lparam] := by
      simp [log]
    have hcd := callsDuring_of_append ht
    refine ⟨_, ?_, hcd, ?_, ?_⟩
    · simp [FlutterWindow.MessageHandler, hc, hd, Win32Window.MessageHandler,
        Os.DefWindowProc, log]
    · rw [hcd]; simp [List.count_cons]
    · rw [hcd]; simp [isDefWindowProc]
  · intro r hr
    have ht : (log s (Call.HandleTopLevelWindowProc hwnd WM_FONTCHANGE wparam lparam)).trace
        = s.trace ++ [Call.HandleTopLevelWindowProc hwnd WM_FONTCHANGE wparam lparam] := by
      simp [log]
    have hcd := callsDuring_of_append ht
    refine ⟨_, ?_, hcd, ?_, ?_⟩
    · simp [FlutterWindow.MessageHandler, hc, hr]
    · rw [hcd]; simp [List.count_cons]
    · rw [hcd]; simp [isDefWindowProc]

/-- Instance of amended C2 at the scenario window with an engine that declines. -/
theorem font_change_reload_then_default_witness :
    testWindow.flutter_controller_ = some { width := 800, height := 600 } ∧
    demoEnv.HandleTopLevelWindowProc testWindow.trace 0x1001 WM_FONTCHANGE 0 0 = none ∧
    ∃ t, FlutterWindow.MessageHandler demoEnv testWindow 0x1001 WM_FONTCHANGE 0 0
        = Except.ok (0, t) ∧
      callsDuring testWindow t =
        [Call.HandleTopLevelWindowProc 0x1001 WM_FONTCHANGE 0 0, Call.ReloadSystemFonts,
         Call.DefWindowProc 0x1001 WM_FONTCHANGE 0 0] := by
  refine ⟨rfl, rfl, ?_⟩
  obtain ⟨t, h1, h2, _⟩ :=
    (font_change_reload_then_default demoEnv testWindow 0x1001 0 0
      { width := 800, height := 600 } rfl).1 rfl
  exact ⟨t, h1, h2⟩

/-- C2 (counterexample): the scenario window was created successfully and holds its
engine controller; with an engine that declines the message, `WM_FONTCHANGE` does not
end with one reload and no `DefWindowProc` call, because the handler goes on to the
base handler after the reload. -/
theorem font_change_still_reaches_DefWindowProc :
    testWindow.flutter_controller_ = some { width := 800, height := 600 } ∧
    ¬ FontChangeReloadsOnly demoEnv testWindow 0x1001 0 0 := by
  refine ⟨rfl, ?_⟩
  rintro ⟨r, t, ht, _, hdef⟩
  have hcount : (FlutterWindow.MessageHandler demoEnv testWindow 0x1001 WM_FONTCHANGE 0
        0).toOption.map (fun p => (callsDuring testWindow p.2).countP isDefWindowProc)
      = some 1 := by decide
  rw [ht] at hcount
  simp only [Except.toOption, Option.map_some', Option.some.injEq] at hcount
  omega

theorem destroyCalls_no_offer (s : State) :
    (destroyCalls s).countP isHandleTopLevelWindowProc = 0 ∧
    (destroyCalls s).countP isMessageHandler = 0 := by
  unfold destroyCalls
  split
  · simp
  · split
    · split <;> simp [isHandleTopLevelWindowProc, isMessageHandler]
    · simp [isHandleTopLevelWindowProc, isMessageHandler]

theorem callOnClose_trace (env : Env) (k : DynamicType) (s : State) :
    (callOnClose env k s).2.trace
      = s.trace ++ Call.OnClose ::
          (if s.quit_on_close_ then destroyCalls (log s Call.OnClose) else []) := by
  unfold callOnClose Win32Window.OnClose
  cases hq : s.quit_on_close_
  · simp [log, hq]
  · simp [log, hq, Destroy_trace]

theorem no_offer_of_trace {s t : State} {l : List Call} (h : t.trace = s.trace ++ l)
    (h1 : l.countP isHandleTopLevelWindowProc = 0) (h2 : l.countP isMessageHandler = 0) :
    (callsDuring s t).countP isHandleTopLevelWindowProc = 0 ∧
    (callsDuring s t).countP isMessageHandler = 0 := by
  rw [callsDuring_of_append h]
  exact ⟨h1, h2⟩

theorem intercepted_not_offered (env : Env) (k : DynamicType) (s : State) (hwnd : HWND)
    (message : UINT) (wparam : WPARAM) (lparam : LPARAM)
    (hassoc : s.os.userdata hwnd = true)
    (hm : message = WM_NCCREATE ∨ message ∈ interceptedMessages) :
    ∃ r t, Win32Window.WndProc env k s hwnd message wparam lparam = Except.ok (r, t) ∧
      (callsDuring s t).countP isHandleTopLevelWindowProc = 0 ∧
      (callsDuring s t).countP isMessageHandler = 0 := by
  have key : ∀ (X : LRESULT × State) (l : List Call),
      Win32Window.WndProc env k s hwnd message wparam lparam = Except.ok X →
      X.2.trace = s.trace ++ l →
      l.countP isHandleTopLevelWindowProc = 0 → l.countP isMessageHandler = 0 →
      ∃ r t, Win32Window.WndProc env k s hwnd message wparam lparam = Except.ok (r, t) ∧
        (callsDuring s t).countP isHandleTopLevelWindowProc = 0 ∧
        (callsDuring s t).countP isMessageHandler = 0 :=
    fun X l h1 h2 h3 h4 => ⟨X.1, X.2, h1, no_offer_of_trace h2 h3 h4⟩
  simp only [interceptedMessages, List.mem_cons, List.mem_singleton, List.not_mem_nil,
    or_false] at hm
  rcases hm with h | h | h | h | h | h | h | h | h <;> subst h
  · -- WM_NCCREATE
    apply key (Win32Window.WndProc_WM_NCCREATE env s hwnd wparam lparam)
      [Call.SetWindowLongPtr hwnd, Call.DefWindowProc hwnd WM_NCCREATE wparam lparam]
    · simp [Win32Window.WndProc]
    · simp [Win32Window.WndProc_WM_NCCREATE, Os.SetWindowLongPtr, Os.DefWindowProc, log]
    · simp [isHandleTopLevelWindowProc]
    · simp [isMessageHandler]
  · -- WM_DESTROY
    apply key (Win32Window.WndProc_WM_DESTROY k s)
      (Call.OnDestroy :: (if s.quit_on_close_ then [Call.PostQuitMessage 0] else []))
    · simp [Win32Window.WndProc, hassoc]
    · cases k <;> cases hq : s.quit_on_close_ <;>
        simp [Win32Window.WndProc_WM_DESTROY, callOnDestroy, Win32Window.OnDestroy,
          FlutterWindow.OnDestroy, Os.PostQuitMessage, log, hq]
    · cases hq : s.quit_on_close_ <;> simp [isHandleTopLevelWindowProc]
    · cases hq : s.quit_on_close_ <;> simp [isMessageHandler]
  · -- WM_CLOSE
    apply key (callOnClose env k s)
      (Call.OnClose :: (if s.quit_on_close_ then destroyCalls (log s Call.OnClose) else []))
    · simp [Win32Window.WndProc, hassoc]
    · exact callOnClose_trace env k s
    · cases hq : s.quit_on_close_ <;>
        simp [isHandleTopLevelWindowProc, (destroyCalls_no_offer (log s Call.OnClose)).1]
    · cases hq : s.quit_on_close_ <;>
        simp [isMessageHandler, (destroyCalls_no_offer (log s Call.OnClose)).2]
  · -- WM_ACTIVATE
    apply key (0, if LOWORD wparam = WA_INACTIVE then callOnDeactivate s else callOnActivate s)
      [if LOWORD wparam = WA_INACTIVE then Call.OnDeactivate else Call.OnActivate]
    · simp [Win32Window.WndProc, hassoc]
    · by_cases hw : LOWORD wparam = WA_INACTIVE <;>
        simp [hw, callOnDeactivate, callOnActivate, Win32Window.OnDeactivate,
          Win32Window.OnActivate, log]
    · by_cases hw : LOWORD wparam = WA_INACTIVE <;> simp [hw, isHandleTopLevelWindowProc]
    · by_cases hw : LOWORD wparam = WA_INACTIVE <;> simp [hw, isMessageHandler]
  · -- WM_SIZE
    by_cases hw : wparam = SIZE_MINIMIZED
    · apply key (0, s) []
      · simp [Win32Window.WndProc, hassoc, hw]
      · simp
      · simp
      · simp
    · apply key (0, callOnBoundsChanged s (RectToPoint (s.os.clientRect hwnd))
          (RectToSize (s.os.clientRect hwnd)))
        [Call.OnBoundsChanged (RectToPoint (s.os.clientRect hwnd))
          (RectToSize (s.os.clientRect hwnd))]
      · simp [Win32Window.WndProc, hassoc, hw]
      · simp [callOnBoundsChanged, Win32Window.OnBoundsChanged, log]
      · simp [isHandleTopLevelWindowProc]
      · simp [isMessageHandler]
  · -- WM_DPICHANGED
    apply key (0, callOnDpiScaleFactorChanged s) [Call.OnDpiScaleFactorChanged]
    · simp [Win32Window.WndProc, hassoc]
    · simp [callOnDpiScaleFactorChanged, Win32Window.OnDpiScaleFactorChanged, log]
    · simp [isHandleTopLevelWindowProc]
    · simp [isMessageHandler]
  · -- WM_SETTINGCHANGE
    apply key (0, callOnSettingChanged s (toDWORD wparam))
      [Call.OnSettingChanged (toDWORD wparam)]
    · simp [Win32Window.WndProc, hassoc]
    · simp [callOnSettingChanged, Win32Window.OnSettingChanged, log]
    · simp [isHandleTopLevelWindowProc]
    · simp [isMessageHandler]
  · -- WM_SYSCOMMAND
    apply key (callOnSystemCommand s (toDWORD wparam)
        { x := GET_X_LPARAM lparam, y := GET_Y_LPARAM lparam })
      [Call.OnSystemCommand (toDWORD wparam)
        { x := GET_X_LPARAM lparam, y := GET_Y_LPARAM lparam }]
    · simp [Win32Window.WndProc, hassoc]
    · simp [callOnSystemCommand, Win32Window.OnSystemCommand, log]
    · simp [isHandleTopLevelWindowProc]
    · simp [isMessageHandler]
  · -- WM_THEMECHANGE
    apply key (0, callOnThemeChanged s) [Call.OnThemeChanged]
    · simp [Win32Window.WndProc, hassoc]
    · simp [callOnThemeChanged, Win32Window.OnThemeChanged, log]
    · simp [isHandleTopLevelWindowProc]
    · simp [isMessageHandler]

theorem passed_on_offered_first (env : Env) (s : State) (hwnd : HWND) (message : UINT)
    (wparam : WPARAM) (lparam : LPARAM) (c : Controller)
    (hassoc : s.os.userdata hwnd = true) (hc : s.flutter_controller_ = some c)
    (h1 : message ≠ WM_NCCREATE) (h2 : message ∉ interceptedMessages) :
    ∃ r t rest, Win32Window.WndProc env DynamicType.flutterWindow s hwnd message wparam lparam
        = Except.ok (r, t) ∧
      callsDuring s t = Call.MessageHandler hwnd message wparam lparam ::
        Call.HandleTopLevelWindowProc hwnd message wparam lparam :: rest ∧
      rest.countP isHandleTopLevelWindowProc = 0 := by
  have key : ∀ (X : LRESULT × State) (rest : List Call),
      Win32Window.WndProc env DynamicType.flutterWindow s hwnd message wparam lparam
        = Except.ok X →
      X.2.trace = s.trace ++ (Call.MessageHandler hwnd message wparam lparam ::
        Call.HandleTopLevelWindowProc hwnd message wparam lparam :: rest) →
      rest.countP isHandleTopLevelWindowProc = 0 →
      ∃ r t rest, Win32Window.WndProc env DynamicType.flutterWindow s hwnd message wparam lparam
          = Except.ok (r, t) ∧
        callsDuring s t = Call.MessageHandler hwnd message wparam lparam ::
          Call.HandleTopLevelWindowProc hwnd message wparam lparam :: rest ∧
        rest.countP isHandleTopLevelWindowProc = 0 :=
    fun X rest e1 e2 e3 => ⟨X.1, X.2, rest, e1, callsDuring_of_append e2, e3⟩
  simp only [interceptedMessages, List.mem_cons, List.mem_singleton, List.not_mem_nil,
    or_false, not_or] at h2
  obtain ⟨n1, n2, n3, n4, n5, n6, n7, n8⟩ := h2
  have hdisp : Win32Window.WndProc env DynamicType.flutterWindow s hwnd message wparam lparam
      = FlutterWindow.MessageHandler env (log s (Call.MessageHandler hwnd message wparam lparam))
          hwnd message wparam lparam := by
    simp [Win32Window.WndProc, hassoc, h1, n1, n2, n3, n4, n5, n6, n7, n8, callMessageHandler]
  cases ho : env.HandleTopLevelWindowProc
      (s.trace ++ [Call.MessageHandler hwnd message wparam lparam]) hwnd message wparam lparam with
  | some r =>
    apply key (r, log (log s (Call.MessageHandler hwnd message wparam lparam))
      (Call.HandleTopLevelWindowProc hwnd message wparam lparam)) []
    · rw [hdisp]
      simp [FlutterWindow.MessageHandler, log, hc, ho]
    · simp [log]
    · simp
  | none =>
    by_cases hf : message = WM_FONTCHANGE
    · subst hf
      apply key (Win32Window.MessageHandler env
          (log (log (log s (Call.MessageHandler hwnd WM_FONTCHANGE wparam lparam))
            (Call.HandleTopLevelWindowProc hwnd WM_FONTCHANGE wparam lparam))
            Call.ReloadSystemFonts)
          hwnd WM_FONTCHANGE wparam lparam)
        [Call.ReloadSystemFonts, Call.DefWindowProc hwnd WM_FONTCHANGE wparam lparam]
      · rw [hdisp]
        simp [FlutterWindow.MessageHandler, log, hc, ho]
      · simp [Win32Window.MessageHandler, Os.DefWindowProc, log]
      · simp [isHandleTopLevelWindowProc]
    · apply key (Win32Window.MessageHandler env
          (log (log s (Call.MessageHandler hwnd message wparam lparam))
            (Call.HandleTopLevelWindowProc hwnd message wparam lparam))
          hwnd message wparam lparam)
        [Call.DefWindowProc hwnd message wparam lparam]
      · rw [hdisp]
        simp [FlutterWindow.MessageHandler, log, hc, ho, hf]
      · simp [Win32Window.MessageHandler, Os.DefWindowProc, log]
      · simp [isHandleTopLevelWindowProc]

/-- C3 (as amended): for a `FlutterWindow` with an associated instance and a live engine
controller, every message that is neither `WM_NCCREATE` nor one of the eight messages
`WndProc` has a case for goes to `MessageHandler`, where the engine's
`HandleTopLevelWindowProc` is offered it first, before any other handling, and exactly
once.  `WM_NCCREATE` and the eight intercepted messages (destroy, close, activate, size,
DPI-changed, setting-changed, system-command, theme-changed) are handled by `WndProc`
itself: neither `MessageHandler` nor the engine's `HandleTopLevelWindowProc` is called
for them. -/
theorem engine_offered_first_unless_intercepted (env : Env) (s : State) (hwnd : HWND)
    (message : UINT) (wparam : WPARAM) (lparam : LPARAM) (c : Controller)
    (hassoc : s.os.userdata hwnd = true) (hc : s.flutter_controller_ = some c) :
    (message ≠ WM_NCCREATE → message ∉ interceptedMessages →
      ∃ r t rest,
        Win32Window.WndProc env DynamicType.flutterWindow s hwnd message wparam lparam
          = Except.ok (r, t) ∧
        callsDuring s t = Call.MessageHandler hwnd message wparam lparam ::
          Call.HandleTopLevelWindowProc hwnd message wparam lparam :: rest ∧
        rest.countP isHandleTopLevelWindowProc = 0) ∧
    (message = WM_NCCREATE ∨ message ∈ interceptedMessages →
      ∃ r t,
        Win32Window.WndProc env DynamicType.flutterWindow s hwnd message wparam lparam
          = Except.ok (r, t) ∧
        (callsDuring s t).countP isHandleTopLevelWindowProc = 0 ∧
        (callsDuring s t).countP isMessageHandler = 0) :=
  ⟨passed_on_offered_first env s hwnd message wparam lparam c hassoc hc,
   intercepted_not_offered env DynamicType.flutterWindow s hwnd message wparam lparam hassoc⟩

/-- Instance of amended C3 at the scenario window for `WM_KEYDOWN` and for `WM_SIZE`. -/
theorem engine_offered_first_unless_intercepted_witness :
    testWindow.os.userdata 0x1001 = true ∧
    testWindow.flutter_controller_ = some { width := 800, height := 600 } ∧
    (0x0100 : UINT) ≠ WM_NCCREATE ∧ (0x0100 : UINT) ∉ interceptedMessages ∧
    (∃ r t rest,
      Win32Window.WndProc demoEnv DynamicType.flutterWindow testWindow 0x1001 0x0100 65 0
        = Except.ok (r, t) ∧
      callsDuring testWindow t = Call.MessageHandler 0x1001 0x0100 65 0 ::
        Call.HandleTopLevelWindowProc 0x1001 0x0100 65 0 :: rest ∧
      rest.countP isHandleTopLevelWindowProc = 0) ∧
    WM_SIZE ∈ interceptedMessages ∧
    (∃ r t,
      Win32Window.WndProc demoEnv DynamicType.flutterWindow testWindow 0x1001 WM_SIZE 0 0
        = Except.ok (r, t) ∧
      (callsDuring testWindow t).countP isHandleTopLevelWindowProc = 0 ∧
      (callsDuring testWindow t).countP isMessageHandler = 0) :=
  ⟨rfl, rfl, by decide, by decide,
   (engine_offered_first_unless_intercepted demoEnv testWindow 0x1001 0x0100 65 0
      { width := 800, height := 600 } rfl rfl).1 (by decide) (by decide),
   by decide,
   (engine_offered_first_unless_intercepted demoEnv testWindow 0x1001 WM_SIZE 0 0
      { width := 800, height := 600 } rfl rfl).2 (Or.inr (by decide))⟩

/-- C3 (counterexample): the scenario window has an associated instance and a live
engine controller, yet a `WM_SIZE` delivered through `WndProc` is never offered to the
engine's `HandleTopLevelWindowProc`: the only call made is `OnBoundsChanged`. -/
theorem size_message_not_offered_to_engine :
    testWindow.os.userdata 0x1001 = true ∧
    testWindow.flutter_controller_ = some { width := 800, height := 600 } ∧
    ¬ EngineOffered demoEnv DynamicType.flutterWindow testWindow 0x1001 WM_SIZE 0 50332672 := by
  refine ⟨rfl, rfl, ?_⟩
  rintro ⟨r, t, ht, hmem⟩
  have hcalls : (Win32Window.WndProc demoEnv DynamicType.flutterWindow testWindow 0x1001
        WM_SIZE 0 50332672).toOption.map (fun p => callsDuring testWindow p.2)
      = some [Call.OnBoundsChanged { x := 0, y := 0 } { width := 800, height := 600 }] := by
    decide
  rw [ht] at hcalls
  simp only [Except.toOption, Option.map_some', Option.some.injEq] at hcalls
  rw [hcalls] at hmem
  simp at hmem

/-- C9 (failing input): the constructor leaves `hwnd_` as the storage held it.  For an
object constructed in storage filled with `0xCC` bytes `GetHandle()` is not the null
handle, and the `Destroy()` made by the destructor or at the start of `CreateAndShow`
is no no-op: it invokes the `OnDestroy` hook and calls `DestroyWindow` on the stale
value. -/
theorem stale_storage_is_seen_as_owned_window :
    Win32Window.GetHandle staleWindow = 0xCCCCCCCCCCCCCCCC ∧
    Win32Window.GetHandle staleWindow ≠ nullptr ∧
    callsDuring staleWindow (Win32Window.Destroy demoEnv DynamicType.win32Window staleWindow)
      = [Call.OnDestroy, Call.DestroyWindow 0xCCCCCCCCCCCCCCCC,
         Call.DefWindowProc 0xCCCCCCCCCCCCCCCC WM_DESTROY 0 0] ∧
    (callsDuring staleWindow
      (Win32Window.CreateAndShow demoEnv DynamicType.win32Window staleWindow "Test"
        { x := 0, y := 0 } { width := 800, height := 600 }).2).take 2
      = [Call.OnDestroy, Call.DestroyWindow 0xCCCCCCCCCCCCCCCC] := by
  refine ⟨rfl, by decide, by decide, by decide⟩

/-- C10 (failing input): once `OnDestroy` has released the engine controller, a
`WM_FONTCHANGE` reaching `FlutterWindow::MessageHandler`, directly or through
`WndProc`, dereferences the empty `flutter_controller_`: the handler faults where the
claim has it return the base handler's result. -/
theorem font_change_without_controller_faults :
    releasedWindow.flutter_controller_ = none ∧
    releasedWindow.os.userdata 0x1001 = true ∧
    FlutterWindow.MessageHandler demoEnv releasedWindow 0x1001 WM_FONTCHANGE 0 0
      = Except.error Fault.nullDereference ∧
    Win32Window.WndProc demoEnv DynamicType.flutterWindow releasedWindow 0x1001
      WM_FONTCHANGE 0 0 = Except.error Fault.nullDereference := by
  refine ⟨rfl, rfl, rfl, rfl⟩

end TourMate
